import Mathlib

/-!
Verification of the smart_ads_monitor kiosk carousel.

This file shallowly embeds the content-lifecycle manager, the voice
scheduler, the gesture-driven navigation state machine and the refresh
logic of src/ad_slides.py together with the hand-loss branch of the
recognizer in src/gesture.py, and proves the behavioural claims about
them.

Modelling conventions:
- datetime instants and timedeltas are integers counting seconds; the
  library call datetime.strptime(ts, "%Y%m%d%H%M%S") is abstracted as a
  function parameter parseTs : String -> Option Int (the calendar
  encoding is irrelevant to every property proved here, only differences
  of instants matter);
- the filesystem is abstracted as a predicate onDisk : String -> Bool
  standing for os.path.exists, and physical deletion is recorded as the
  list of paths the loader removes;
- normalized screen coordinates and drag offsets are rationals;
- Python dicts keyed by timestamp strings are association lists.
-/

/-- Python str.strip(): drop leading and trailing whitespace. -/
def isSpaceChar (c : Char) : Bool :=
  c = ' ' || c = '\t' || c = '\n' || c = '\r' || c = '\x0b' || c = '\x0c'

/-- Python s.strip() over the underlying character list. -/
def pyStrip (s : String) : String :=
  String.mk (((s.toList.dropWhile isSpaceChar).reverse.dropWhile isSpaceChar).reverse)

/-- os.path.isabs on POSIX: the path starts with a slash. -/
def isAbsPath (s : String) : Bool :=
  s.toList.head? = some '/'

/-- os.path.join(os.getcwd(), "static", media) for a relative media path;
the constant working-directory prefix is elided since no claim inspects
it, leaving the distinguishing "static/" component. -/
def resolveMedia (media : String) : String :=
  if isAbsPath media then media else "static/" ++ media

/-- The characters after the last slash (os.path.basename). -/
def lastComponent (cs : List Char) : List Char :=
  cs.foldl (fun acc c => if c = '/' then [] else acc ++ [c]) []

/-- os.path.splitext(path)[1]: the extension of the basename including
its dot, where leading dots of the basename do not start an extension. -/
def extOf (path : String) : String :=
  let base := lastComponent path.toList
  let core := base.dropWhile (fun c => c = '.')
  if core.contains '.' then
    String.mk ('.' :: ((core.reverse.takeWhile (fun c => c != '.')).reverse))
  else ""

/-- Python str.lower() over the character list. -/
def pyLower (s : String) : String :=
  String.mk (s.toList.map Char.toLower)

/-- The video extensions recognized by load_posts. -/
def videoExts : List String :=
  [".mp4", ".avi", ".mov", ".mkv", ".webm", ".m4v"]

/-- One record of posts_history.json as the uploader writes it; every
field is optional because load_posts accesses them with dict.get. -/
structure StorePost where
  status : Option String
  text : Option String
  media_path : Option String
  timestamp : Option String
deriving DecidableEq, Repr

/-- One entry of the valid_posts list built by load_posts (the
SlideDescriptor of the spec). -/
structure SlideDescriptor where
  media : String
  caption : String
  urgent : Bool
  is_video : Bool
  is_text_only : Bool
  timestamp : String
deriving DecidableEq, Repr

/-- What the per-post body of the load_posts loop does with one record:
skip it, expire it (optionally deleting a media file), or keep it as a
descriptor. -/
inductive PostOutcome
  | dropped
  | expired (delete : Option String)
  | kept (d : SlideDescriptor)
deriving DecidableEq, Repr

/-- The body of the for-loop of load_posts (src/ad_slides.py lines
203-261) for a single post, at time now, with timestamp parsing parseTs
and filesystem onDisk. -/
def classifyPost (now : Int) (parseTs : String → Option Int)
    (onDisk : String → Bool) (p : StorePost) : PostOutcome :=
  let status := p.status.getD "ordinary"
  let media := pyStrip (p.media_path.getD "")
  let text := pyStrip (p.text.getD "")
  if media = "" && text = "" then .dropped
  else
    match p.timestamp with
    | none => .dropped
    | some ts =>
      if ts = "" then .dropped
      else
        match parseTs ts with
        | none => .dropped
        | some post_time =>
          let expiry_hours : Int := if status = "urgent" then 3 else 24
          if expiry_hours * 3600 < now - post_time then
            .expired (if media ≠ "" && onDisk (resolveMedia media)
                      then some (resolveMedia media) else none)
          else
            let mediaR := if media = "" then "" else resolveMedia media
            let text_only := media = "" || !(onDisk mediaR)
            let mediaF := if text_only then "" else mediaR
            let vid := mediaF ≠ "" && videoExts.contains (pyLower (extOf mediaF))
            .kept ⟨mediaF, text, status = "urgent", vid, text_only, ts⟩

/-- load_posts (src/ad_slides.py lines 191-270): returns the valid
SlideDescriptor list, the surviving posts written back to the store, and
the list of media paths deleted from disk. -/
def load_posts (now : Int) (parseTs : String → Option Int)
    (onDisk : String → Bool) (posts : List StorePost) :
    List SlideDescriptor × List StorePost × List String :=
  (posts.filterMap (fun p =>
      match classifyPost now parseTs onDisk p with
      | .kept d => some d
      | _ => none),
   posts.filter (fun p =>
      match classifyPost now parseTs onDisk p with
      | .kept _ => true
      | _ => false),
   posts.filterMap (fun p =>
      match classifyPost now parseTs onDisk p with
      | .expired (some m) => some m
      | _ => none))

/-- One entry of VoiceManager.voice_states (the VoiceSchedule of the
spec). -/
structure VoiceEntry where
  play_times : List Int
  played_count : Nat
  last_check : Option Int
deriving DecidableEq, Repr

/-- VoiceManager (src/ad_slides.py lines 392-489): availability flag plus
the per-timestamp schedule dictionary, as an association list. -/
structure VoiceManager where
  voice_available : Bool
  voice_states : List (String × VoiceEntry)
deriving DecidableEq, Repr

/-- The play_times computation of register_urgent_ad (src/ad_slides.py
lines 412-424): if the post is at most 3 hours old, play now when it is
younger than 5 minutes, then the +1h and +2h instants from post creation
that do not exceed creation plus 3 hours. -/
def computePlayTimes (now post_time : Int) : List Int :=
  if now - post_time ≤ 3 * 3600 then
    (if now - post_time < 5 * 60 then [now] else []) ++
      (([1, 2].map (fun h => post_time + h * 3600)).filter
        (fun s => decide (s ≤ post_time + 3 * 3600)))
  else []

/-- VoiceManager.register_urgent_ad (src/ad_slides.py lines 403-434). -/
def register_urgent_ad (now : Int) (parseTs : String → Option Int)
    (vm : VoiceManager) (ts : String) : VoiceManager :=
  if !vm.voice_available || (vm.voice_states.lookup ts).isSome then vm
  else
    match parseTs ts with
    | none => vm
    | some post_time =>
      let pts := computePlayTimes now post_time
      if pts = [] then vm
      else { vm with voice_states := vm.voice_states ++ [(ts, ⟨pts, 0, none⟩)] }

/-- VoiceManager.should_play_voice (src/ad_slides.py lines 436-452) for
one tracked entry: the availability and membership guards of the method
are the caller-side selection of the entry. Returns the boolean together
with the entry whose last_check was possibly advanced to now. -/
def should_play_voice (now : Int) (e : VoiceEntry) : Bool × VoiceEntry :=
  if h : e.played_count < e.play_times.length then
    let next_play_time := e.play_times.get ⟨e.played_count, h⟩
    if next_play_time ≤ now then
      match e.last_check with
      | none => (true, { e with last_check := some now })
      | some lc =>
        if lc < next_play_time then (true, { e with last_check := some now })
        else (false, e)
    else (false, e)
  else (false, e)

/-- VoiceManager.mark_played (src/ad_slides.py lines 454-458) for one
tracked entry. -/
def mark_played (e : VoiceEntry) : VoiceEntry :=
  { e with played_count := e.played_count + 1 }

/-- One polling round of check_and_play_urgent_voices (src/ad_slides.py
lines 1021-1027) for one tracked entry: run should_play_voice and call
mark_played exactly on a true result. -/
def pollStep (now : Int) (e : VoiceEntry) : Bool × VoiceEntry :=
  let r := should_play_voice now e
  if r.1 then (true, mark_played r.2) else (false, r.2)

/-- Repeated polling rounds at the given instants, recording for every
round that fired the slot index (the played_count consumed). -/
def pollTrace (times : List Int) (e : VoiceEntry) : List Nat × VoiceEntry :=
  match times with
  | [] => ([], e)
  | t :: rest =>
    let r := pollStep t e
    let tl := pollTrace rest r.2
    (if r.1 then e.played_count :: tl.1 else tl.1, tl.2)

/-- The interaction mode of the app (self.mode in ThelabApp). -/
inductive Mode
  | auto
  | gesture
deriving DecidableEq, Repr

/-- self.gesture_state of ThelabApp.on_gesture (src/ad_slides.py lines
1048-1054). -/
structure GestureState where
  dragging : Bool
  drag_offset : ℚ
  slide_changed : Bool
  locked : Bool
deriving DecidableEq, Repr

/-- The gesture_state value on_gesture initializes and resets to. -/
def cleanGS : GestureState :=
  { dragging := false, drag_offset := 0, slide_changed := false, locked := false }

/-- The discrete events the recognizer delivers to the app callback. -/
inductive GEvent
  | palmAppeared
  | palmDisappeared
  | handLost
  | pinchStart
  | pinchDrag (offset : ℚ)
  | pinchRelease (final_offset : ℚ)
  | fastStart
  | fastEnd
deriving DecidableEq, Repr

/-- The navigation commands the state machine can issue. -/
inductive Cmd
  | next
  | previous
deriving DecidableEq, Repr

/-- ThelabApp.next_slide index update (src/ad_slides.py line 1031). -/
def next_slide (n i : Int) : Int := (i + 1) % n

/-- ThelabApp.previous_slide index update (src/ad_slides.py line 1036). -/
def previous_slide (n i : Int) : Int := (i - 1) % n

/-- The slice of ThelabApp state that on_gesture reads and writes: the
interaction mode, the gesture state and the current slide index. -/
structure AppNav where
  mode : Mode
  gs : GestureState
  current_index : Int
deriving DecidableEq, Repr

/-- The pinch/swipe threshold of on_gesture (src/ad_slides.py line
1105). -/
def swipeThreshold : ℚ := 15 / 100

/-- The gesture_state mutation on_gesture performs right after issuing a
slide change (src/ad_slides.py lines 1111-1113 and 1119-1121). -/
def lockGS (g : GestureState) : GestureState :=
  { g with slide_changed := true, locked := true, drag_offset := 0 }

/-- ThelabApp.on_gesture (src/ad_slides.py lines 1044-1143) over n
slides, also reporting the slide-change commands it issued during the
call. -/
def on_gesture (n : Int) (s : AppNav) (e : GEvent) : AppNav × List Cmd :=
  match e with
  | .palmAppeared => ({ s with mode := .gesture }, [])
  | .palmDisappeared => ({ s with mode := .auto, gs := cleanGS }, [])
  | .handLost => ({ s with mode := .auto, gs := cleanGS }, [])
  | .pinchStart =>
    if s.mode ≠ Mode.gesture then (s, [])
    else if s.gs.locked then (s, [])
    else ({ s with gs := { dragging := true, drag_offset := 0,
                           slide_changed := false, locked := false } }, [])
  | .pinchDrag offset =>
    if s.mode ≠ Mode.gesture then (s, [])
    else if s.gs.locked || !s.gs.dragging then (s, [])
    else
      let s1 := { s with gs := { s.gs with drag_offset := offset } }
      if !s1.gs.slide_changed then
        if swipeThreshold < offset then
          ({ s1 with current_index := previous_slide n s1.current_index,
                     gs := lockGS s1.gs }, [Cmd.previous])
        else if offset < -swipeThreshold then
          ({ s1 with current_index := next_slide n s1.current_index,
                     gs := lockGS s1.gs }, [Cmd.next])
        else (s1, [])
      else (s1, [])
  | .pinchRelease _ =>
    if s.mode ≠ Mode.gesture then (s, [])
    else ({ s with gs := cleanGS }, [])
  | .fastStart => (s, [])
  | .fastEnd => (s, [])

/-- Deliver a list of events to on_gesture in order, concatenating the
issued commands. -/
def onEvents (n : Int) (s : AppNav) (es : List GEvent) : AppNav × List Cmd :=
  match es with
  | [] => (s, [])
  | e :: rest =>
    let r := on_gesture n s e
    let r2 := onEvents n r.1 rest
    (r2.1, r.2 ++ r2.2)

/-- One full pinch lifecycle: pinch_start, then the given drag offsets,
then pinch_release. -/
def pinchLifecycle (n : Int) (s : AppNav) (offsets : List ℚ) : AppNav × List Cmd :=
  onEvents n s
    (GEvent.pinchStart :: (offsets.map GEvent.pinchDrag ++ [GEvent.pinchRelease 0]))

/-- The first drag offset whose magnitude crosses the swipe threshold. -/
def firstTrigger (offsets : List ℚ) : Option ℚ :=
  offsets.find? (fun o => decide (swipeThreshold < o) || decide (o < -swipeThreshold))

/-- The state of GestureControl (src/gesture.py) read and written by the
no-hand branch of run_once. -/
structure RecogState where
  is_pinching : Bool
  pinch_start_x : Option ℚ
  current_x : Option ℚ
  palm_detected : Bool
  last_palm_state : Bool
  is_moving_fast : Bool
  last_position : Option (ℚ × ℚ)
  last_time : Option ℚ
  velocity_history : List ℚ
deriving DecidableEq, Repr

/-- The no-hand-detected branch of GestureControl.run_once
(src/gesture.py lines 267-305): force a pinch release with offset 0 if a
pinch was latched, emit hand_lost if a palm was tracked, close out fast
movement, and clear the velocity tracking. Returns the new recognizer
state and the emitted events in emission order. -/
def runOnceNoHand (r : RecogState) : RecogState × List GEvent :=
  let evs1 : List GEvent :=
    if r.is_pinching then [GEvent.pinchRelease 0] else []
  let r1 : RecogState :=
    if r.is_pinching then
      { r with is_pinching := false, pinch_start_x := none, current_x := none }
    else r
  let evs2 : List GEvent :=
    if r1.palm_detected then [GEvent.handLost] else []
  let r2 : RecogState :=
    if r1.palm_detected then
      { r1 with palm_detected := false, last_palm_state := false }
    else r1
  let evs3 : List GEvent :=
    if r2.is_moving_fast then [GEvent.fastEnd] else []
  let r3 : RecogState :=
    if r2.is_moving_fast then { r2 with is_moving_fast := false } else r2
  ({ r3 with last_position := none, last_time := none, velocity_history := [] },
   evs1 ++ evs2 ++ evs3)

/-- The slide-set fingerprint of refresh_posts (src/ad_slides.py line
1148). -/
def fingerprint (posts : List SlideDescriptor) : List (String × String × Bool) :=
  posts.map (fun p => (p.media, p.caption, p.urgent))

/-- The synthetic placeholder slide built in ThelabApp.__init__
(src/ad_slides.py lines 950-952); absent dict keys become defaults. -/
def placeholderInit : SlideDescriptor :=
  ⟨"", "Your ads here", false, false, true, ""⟩

/-- The synthetic placeholder slide built in ThelabApp.refresh_posts
(src/ad_slides.py lines 1159-1161); its caption carries a trailing
space in the source. -/
def placeholderRefresh : SlideDescriptor :=
  ⟨"", "Your ads here ", false, false, true, ""⟩

/-- The slides_data selection shared by __init__ and refresh_posts:
urgent posts if any, else all posts, else the given placeholder. -/
def selectSlides (placeholder : SlideDescriptor) (posts : List SlideDescriptor) :
    List SlideDescriptor :=
  let urgent := posts.filter (fun p => p.urgent)
  if urgent ≠ [] then urgent
  else if posts ≠ [] then posts
  else [placeholder]

/-- The slide set ThelabApp.__init__ displays for a load result. -/
def init_slides_data (posts : List SlideDescriptor) : List SlideDescriptor :=
  selectSlides placeholderInit posts

/-- The slice of ThelabApp state refresh_posts reads and writes. -/
structure CarouselState where
  last_fingerprint : Option (List (String × String × Bool))
  slides : List SlideDescriptor
  current_index : Int
deriving DecidableEq, Repr

/-- ThelabApp.refresh_posts (src/ad_slides.py lines 1145-1185), applied
to the descriptor list the embedded load returned. -/
def refresh_posts (st : CarouselState) (posts : List SlideDescriptor) :
    CarouselState :=
  let new_fp := fingerprint posts
  if st.last_fingerprint = some new_fp then st
  else
    { last_fingerprint := some new_fp,
      slides := selectSlides placeholderRefresh posts,
      current_index := 0 }

/-- Apply a command stream to the current slide index the way
ThelabApp.next_slide and ThelabApp.previous_slide do. -/
def navRun (n : Int) (i : Int) (cs : List Cmd) : Int :=
  cs.foldl (fun j c =>
    match c with
    | Cmd.next => next_slide n j
    | Cmd.previous => previous_slide n j) i

/-! ## Shared concrete instances used by witnesses and counterexamples -/

/-- A parse function giving the fixed timestamp string the instant 0. -/
def tsParse0 : String → Option Int :=
  fun s => if s = "20250101000000" then some 0 else none

/-- A filesystem on which no path exists. -/
def noDisk : String → Bool := fun _ => false

/-- A filesystem on which every path exists. -/
def allDisk : String → Bool := fun _ => true

/-- A persisted post with empty text and a media path that resolves to
nothing on disk. -/
def ghostPost : StorePost :=
  ⟨some "ordinary", some "", some "ghost.jpg", some "20250101000000"⟩

/-- A persisted post with neither text nor any media path. -/
def blankPost : StorePost :=
  ⟨none, some "   ", some "", some "20250101000000"⟩

/-- An ordinary persisted post with text and media. -/
def picPost : StorePost :=
  ⟨some "ordinary", some "hi", some "pic.jpg", some "20250101000000"⟩

/-! ## C1 -/

/-- Claim C1 as stated is false on the code: ghostPost has empty text and
a media path that exists nowhere on disk (noDisk), is persisted
unexpired, yet load_posts keeps it, returning a text-only
SlideDescriptor with empty media and empty caption instead of excluding
it. The empty-content drop at src/ad_slides.py line 211 tests the raw
media string before resolution. -/
theorem c1_counterexample :
    pyStrip (ghostPost.text.getD "") = "" ∧
    noDisk (resolveMedia (pyStrip (ghostPost.media_path.getD ""))) = false ∧
    (load_posts 0 tsParse0 noDisk [ghostPost]).1 =
      [⟨"", "", false, false, true, "20250101000000"⟩] := by
  decide

/-- Claim C1 amended: load_posts excludes a post exactly when both its
stripped text and its stripped media_path string are empty; a post whose
media path is non-empty but unresolvable is instead kept as a text-only
descriptor. The amended exclusion: inserting a post with empty stripped
text and empty stripped media path anywhere in the store leaves every
output of load_posts (descriptors, written-back posts, deletions)
unchanged. -/
theorem c1_empty_post_excluded (now : Int) (parseTs : String → Option Int)
    (onDisk : String → Bool) (l1 l2 : List StorePost) (p : StorePost)
    (hm : pyStrip (p.media_path.getD "") = "")
    (ht : pyStrip (p.text.getD "") = "") :
    load_posts now parseTs onDisk (l1 ++ p :: l2) =
      load_posts now parseTs onDisk (l1 ++ l2) := by
  have hc : classifyPost now parseTs onDisk p = PostOutcome.dropped := by
    unfold classifyPost
    rw [hm, ht]
    simp
  unfold load_posts
  simp [List.filterMap_append, List.filter_append, hc]

/-- Witness for C1's amended theorem at a concrete input. -/
theorem c1_witness :
    pyStrip (blankPost.media_path.getD "") = "" ∧
    pyStrip (blankPost.text.getD "") = "" ∧
    load_posts 0 tsParse0 noDisk ([ghostPost] ++ blankPost :: [picPost]) =
      load_posts 0 tsParse0 noDisk ([ghostPost] ++ [picPost]) :=
  ⟨by decide, by decide,
   c1_empty_post_excluded 0 tsParse0 noDisk [ghostPost] [picPost] blankPost
     (by decide) (by decide)⟩

/-! ## C6 -/

/-- Claim C6: a persisted post whose age at load time exceeds its expiry
window (3 hours when its status is urgent, 24 hours otherwise) is
excluded both from the returned SlideDescriptor list and from the posts
written back to the store; when its stripped media path is non-empty and
resolves to an existing file, that file is among the paths load_posts
deletes from disk; and the written-back posts are a sublist of the
input, so the survivors keep their original order. -/
theorem c6_expired_excluded (now : Int) (parseTs : String → Option Int)
    (onDisk : String → Bool) (l1 l2 : List StorePost) (p : StorePost)
    (ts : String) (post_time : Int)
    (hts : p.timestamp = some ts) (hne : ts ≠ "")
    (hparse : parseTs ts = some post_time)
    (hexp : (if p.status.getD "ordinary" = "urgent" then (3 : Int) else 24) * 3600
              < now - post_time) :
    (load_posts now parseTs onDisk (l1 ++ p :: l2)).1 =
      (load_posts now parseTs onDisk (l1 ++ l2)).1 ∧
    (load_posts now parseTs onDisk (l1 ++ p :: l2)).2.1 =
      (load_posts now parseTs onDisk (l1 ++ l2)).2.1 ∧
    (pyStrip (p.media_path.getD "") ≠ "" →
      onDisk (resolveMedia (pyStrip (p.media_path.getD ""))) = true →
      resolveMedia (pyStrip (p.media_path.getD "")) ∈
        (load_posts now parseTs onDisk (l1 ++ p :: l2)).2.2) ∧
    (load_posts now parseTs onDisk (l1 ++ p :: l2)).2.1.Sublist (l1 ++ p :: l2) := by
  by_cases hmt : pyStrip (p.media_path.getD "") = "" ∧ pyStrip (p.text.getD "") = ""
  · have hc : classifyPost now parseTs onDisk p = PostOutcome.dropped := by
      unfold classifyPost
      rw [hmt.1, hmt.2]
      simp
    refine ⟨?_, ?_, ?_, ?_⟩
    · unfold load_posts
      simp [List.filterMap_append, hc]
    · unfold load_posts
      simp [List.filter_append, hc]
    · intro hm _
      exact absurd hmt.1 hm
    · exact List.filter_sublist _
  · have hc : classifyPost now parseTs onDisk p =
        PostOutcome.expired
          (if pyStrip (p.media_path.getD "") ≠ "" &&
              onDisk (resolveMedia (pyStrip (p.media_path.getD "")))
           then some (resolveMedia (pyStrip (p.media_path.getD ""))) else none) := by
      simp only [classifyPost, hts, hparse]
      rw [if_neg (by simpa using hmt), if_neg hne, if_pos hexp]
    refine ⟨?_, ?_, ?_, ?_⟩
    · unfold load_posts
      simp [List.filterMap_append, hc]
    · unfold load_posts
      simp [List.filter_append, hc]
    · intro hm hd
      unfold load_posts
      simp only [List.filterMap_append, List.filterMap_cons, hc]
      rw [if_pos (by simp [hm, hd])]
      simp
    · exact List.filter_sublist _

/-- Witness for C6 at a concrete input: 25 hours after creation an
ordinary post with media is pruned from both outputs and its resolved
media path is deleted. -/
theorem c6_witness :
    (load_posts (25 * 3600) tsParse0 allDisk ([ghostPost] ++ picPost :: [])).1 =
      (load_posts (25 * 3600) tsParse0 allDisk ([ghostPost] ++ [])).1 ∧
    (load_posts (25 * 3600) tsParse0 allDisk ([ghostPost] ++ picPost :: [])).2.1 =
      (load_posts (25 * 3600) tsParse0 allDisk ([ghostPost] ++ [])).2.1 ∧
    resolveMedia (pyStrip (picPost.media_path.getD "")) ∈
      (load_posts (25 * 3600) tsParse0 allDisk ([ghostPost] ++ picPost :: [])).2.2 := by
  have h := c6_expired_excluded (25 * 3600) tsParse0 allDisk [ghostPost] []
    picPost "20250101000000" 0 rfl (by decide) (by decide) (by decide)
  exact ⟨h.1, h.2.1, h.2.2.1 (by decide) (by decide)⟩

/-! ## C9 -/

/-- Claim C9: starting from any index in [0, n) of a non-empty slide
list, any sequence of next/previous commands keeps the current index in
[0, n); advancing from the last slide wraps to 0 and retreating from
index 0 wraps to n - 1. -/
theorem c9_navigation_wraps (n i : Int) (cs : List Cmd)
    (hn : 0 < n) (h0 : 0 ≤ i) (hi : i < n) :
    (0 ≤ navRun n i cs ∧ navRun n i cs < n) ∧
    next_slide n (n - 1) = 0 ∧
    previous_slide n 0 = n - 1 := by
  have hnz : n ≠ 0 := by omega
  refine ⟨?_, ?_, ?_⟩
  · induction cs generalizing i with
    | nil => exact ⟨h0, hi⟩
    | cons c rest ih =>
      have hstep : ∀ j : Int,
          0 ≤ (match c with
               | Cmd.next => next_slide n j
               | Cmd.previous => previous_slide n j) ∧
          (match c with
           | Cmd.next => next_slide n j
           | Cmd.previous => previous_slide n j) < n := by
        intro j
        cases c with
        | next =>
          exact ⟨Int.emod_nonneg _ hnz, Int.emod_lt_of_pos _ hn⟩
        | previous =>
          exact ⟨Int.emod_nonneg _ hnz, Int.emod_lt_of_pos _ hn⟩
      have := hstep i
      exact ih _ this.1 this.2
  · show (n - 1 + 1) % n = 0
    rw [show n - 1 + 1 = n by ring, Int.emod_self]
  · show (0 - 1) % n = n - 1
    have h1 : (0 - 1 : Int) % n = (n - 1) % n := by
      rw [show n - 1 = 0 - 1 + n * 1 by ring, Int.add_mul_emod_self_left]
    rw [h1]
    exact Int.emod_eq_of_lt (by omega) (by omega)

/-- Witness for C9 at a concrete input. -/
theorem c9_witness :
    (0 ≤ navRun 3 2 [Cmd.next, Cmd.previous, Cmd.previous] ∧
      navRun 3 2 [Cmd.next, Cmd.previous, Cmd.previous] < 3) ∧
    next_slide 3 (3 - 1) = 0 ∧
    previous_slide 3 0 = 3 - 1 :=
  c9_navigation_wraps 3 2 [Cmd.next, Cmd.previous, Cmd.previous]
    (by decide) (by decide) (by decide)

/-! ## C10 -/

/-- Claim C10: register_urgent_ad is idempotent for an already-tracked
timestamp: when the timestamp is already a key of voice_states, the call
returns the manager unchanged, so the entry's play_times, played_count
and last_check survive repeated refresh cycles untouched. -/
theorem c10_register_idempotent (now : Int) (parseTs : String → Option Int)
    (vm : VoiceManager) (ts : String)
    (h : (vm.voice_states.lookup ts).isSome = true) :
    register_urgent_ad now parseTs vm ts = vm := by
  simp [register_urgent_ad, h]

/-- A voice manager already tracking one timestamp. -/
def vmTracking : VoiceManager :=
  ⟨true, [("20250101000000", ⟨[0, 3600, 7200], 1, some 10⟩)]⟩

/-- Witness for C10: re-registering the tracked timestamp changes
nothing. -/
theorem c10_witness :
    register_urgent_ad 999 tsParse0 vmTracking "20250101000000" = vmTracking :=
  c10_register_idempotent 999 tsParse0 vmTracking "20250101000000" (by decide)

/-! ## C5 -/

/-- Claim C5: for any pair of consecutive refresh calls, if the
fingerprint (the ordered (media, caption, urgent) triples) of the second
load equals that of the first, the second call is a no-op returning the
state unchanged (same current index, same slide list); if it differs,
the second call replaces the slide set wholesale and resets the index
to 0. -/
theorem c5_refresh_noop_or_reset (st : CarouselState)
    (posts1 posts2 : List SlideDescriptor) :
    refresh_posts (refresh_posts st posts1) posts2 =
      (if fingerprint posts2 = fingerprint posts1 then refresh_posts st posts1
       else { last_fingerprint := some (fingerprint posts2),
              slides := selectSlides placeholderRefresh posts2,
              current_index := 0 }) := by
  have h1 : (refresh_posts st posts1).last_fingerprint =
      some (fingerprint posts1) := by
    simp only [refresh_posts]
    split
    · assumption
    · rfl
  have hunf : refresh_posts (refresh_posts st posts1) posts2 =
      (if (refresh_posts st posts1).last_fingerprint = some (fingerprint posts2)
       then refresh_posts st posts1
       else { last_fingerprint := some (fingerprint posts2),
              slides := selectSlides placeholderRefresh posts2,
              current_index := 0 }) := rfl
  rw [hunf, h1]
  by_cases h : fingerprint posts2 = fingerprint posts1
  · rw [if_pos h, if_pos (by rw [h])]
  · rw [if_neg h, if_neg (fun hh => h (Option.some.inj hh).symm)]

/-! ## C8 -/

/-- An urgent slide descriptor used by witnesses. -/
def urgentDesc : SlideDescriptor :=
  ⟨"static/a.jpg", "hello", true, false, false, "20250101000000"⟩

/-- An ordinary slide descriptor used by witnesses. -/
def ordinaryDesc : SlideDescriptor :=
  ⟨"static/b.jpg", "world", false, false, false, "20250101000001"⟩

/-- Claim C8 as stated is false on the code: in the refresh path with no
valid posts the synthetic placeholder slide carries the caption
"Your ads here " with a trailing space (src/ad_slides.py line 1160), not
the claimed "Your ads here" of the startup path. -/
theorem c8_counterexample :
    (refresh_posts ⟨some [("x", "y", false)], [urgentDesc], 5⟩ []).slides =
      [placeholderRefresh] ∧
    placeholderRefresh.caption ≠ "Your ads here" := by
  decide

/-- Claim C8 amended: for every loaded post set, in both the startup
path and the (rebuilding) refresh path, the displayed slide set is
exactly the urgent posts when at least one exists, otherwise all valid
posts, otherwise a single synthetic placeholder slide — whose caption is
"Your ads here" at startup but "Your ads here " (trailing space) on
refresh. -/
theorem c8_selection_policy (posts : List SlideDescriptor) (st : CarouselState)
    (hchange : st.last_fingerprint ≠ some (fingerprint posts)) :
    (posts.filter (fun p => p.urgent) ≠ [] →
       init_slides_data posts = posts.filter (fun p => p.urgent) ∧
       (refresh_posts st posts).slides = posts.filter (fun p => p.urgent)) ∧
    (posts.filter (fun p => p.urgent) = [] → posts ≠ [] →
       init_slides_data posts = posts ∧
       (refresh_posts st posts).slides = posts) ∧
    (posts = [] →
       init_slides_data posts = [placeholderInit] ∧
       (refresh_posts st posts).slides = [placeholderRefresh] ∧
       placeholderInit.caption = "Your ads here" ∧
       placeholderRefresh.caption = "Your ads here ") := by
  have href : (refresh_posts st posts).slides =
      selectSlides placeholderRefresh posts := by
    simp only [refresh_posts]
    rw [if_neg hchange]
  refine ⟨?_, ?_, ?_⟩
  · intro hu
    constructor
    · unfold init_slides_data selectSlides
      rw [if_pos hu]
    · rw [href]
      unfold selectSlides
      rw [if_pos hu]
  · intro hu hp
    constructor
    · unfold init_slides_data selectSlides
      rw [if_neg (by simp [hu]), if_pos hp]
    · rw [href]
      unfold selectSlides
      rw [if_neg (by simp [hu]), if_pos hp]
  · intro hp
    subst hp
    refine ⟨rfl, ?_, rfl, rfl⟩
    rw [href]
    rfl

/-- Witness for C8 at concrete inputs: with one urgent and one ordinary
post both paths restrict to the urgent post. -/
theorem c8_witness :
    init_slides_data [urgentDesc, ordinaryDesc] =
      [urgentDesc, ordinaryDesc].filter (fun p => p.urgent) ∧
    (refresh_posts ⟨none, [], 0⟩ [urgentDesc, ordinaryDesc]).slides =
      [urgentDesc, ordinaryDesc].filter (fun p => p.urgent) :=
  (c8_selection_policy [urgentDesc, ordinaryDesc] ⟨none, [], 0⟩
    (by decide)).1 (by decide)

/-! ## C3 -/

/-- Association-list lookup after appending a fresh key finds the new
binding. -/
theorem lookup_append_fresh (l : List (String × VoiceEntry)) (k : String)
    (v : VoiceEntry) (h : l.lookup k = none) :
    (l ++ [(k, v)]).lookup k = some v := by
  induction l with
  | nil => simp [List.lookup]
  | cons a tl ih =>
    rw [List.cons_append, List.lookup] at *
    cases hk : (k == a.1) with
    | true => simp [hk] at h
    | false =>
      simp only [hk] at h ⊢
      exact ih h

/-- Claim C3: registering an urgent post younger than 3 hours with an
available, not-yet-tracking voice manager stores a fresh schedule whose
play_times are the immediate instant (exactly when the post is younger
than 5 minutes) followed by the creation instant plus 1 hour and plus 2
hours; so it holds between 1 and 3 play times, exactly 3 precisely when
the post is younger than 5 minutes, none of them exceeds creation plus 3
hours, and the sequence is non-decreasing. -/
theorem c3_register_schedule (now post_time : Int) (ts : String)
    (parseTs : String → Option Int) (vm : VoiceManager)
    (hav : vm.voice_available = true)
    (hnew : vm.voice_states.lookup ts = none)
    (hparse : parseTs ts = some post_time)
    (hage : now - post_time < 3 * 3600) :
    (register_urgent_ad now parseTs vm ts).voice_states.lookup ts =
      some ⟨computePlayTimes now post_time, 0, none⟩ ∧
    computePlayTimes now post_time =
      (if now - post_time < 5 * 60 then [now] else []) ++
        [post_time + 1 * 3600, post_time + 2 * 3600] ∧
    1 ≤ (computePlayTimes now post_time).length ∧
    (computePlayTimes now post_time).length ≤ 3 ∧
    ((computePlayTimes now post_time).length = 3 ↔ now - post_time < 5 * 60) ∧
    (∀ x ∈ computePlayTimes now post_time, x ≤ post_time + 3 * 3600) ∧
    (computePlayTimes now post_time).Chain' (· ≤ ·) := by
  have hstruct : computePlayTimes now post_time =
      (if now - post_time < 5 * 60 then [now] else []) ++
        [post_time + 1 * 3600, post_time + 2 * 3600] := by
    unfold computePlayTimes
    rw [if_pos (le_of_lt hage)]
    congr 1
    simp only [List.map]
    rw [List.filter_cons_of_pos, List.filter_cons_of_pos, List.filter_nil]
    · simp only [decide_eq_true_eq]; omega
    · simp only [decide_eq_true_eq]; omega
  have hptsne : computePlayTimes now post_time ≠ [] := by
    rw [hstruct]
    by_cases h5 : now - post_time < 5 * 60
    · rw [if_pos h5]; simp
    · rw [if_neg h5]; simp
  have hreg : (register_urgent_ad now parseTs vm ts).voice_states =
      vm.voice_states ++ [(ts, ⟨computePlayTimes now post_time, 0, none⟩)] := by
    simp only [register_urgent_ad, hav, hnew, hparse, Bool.not_true,
      Option.isSome_none, Bool.or_self, Bool.false_eq_true, if_false]
    rw [if_neg hptsne]
  refine ⟨?_, hstruct, ?_, ?_, ?_, ?_, ?_⟩
  · rw [hreg]
    exact lookup_append_fresh _ _ _ hnew
  · rw [hstruct]
    by_cases h5 : now - post_time < 5 * 60
    · rw [if_pos h5]; simp
    · rw [if_neg h5]; simp
  · rw [hstruct]
    by_cases h5 : now - post_time < 5 * 60
    · rw [if_pos h5]; simp
    · rw [if_neg h5]; simp
  · rw [hstruct]
    by_cases h5 : now - post_time < 5 * 60
    · rw [if_pos h5]; simp; omega
    · rw [if_neg h5]; simp; omega
  · rw [hstruct]
    intro x hx
    by_cases h5 : now - post_time < 5 * 60
    · rw [if_pos h5] at hx
      simp only [List.cons_append, List.nil_append, List.mem_cons,
        List.not_mem_nil, or_false] at hx
      rcases hx with rfl | rfl | rfl <;> omega
    · rw [if_neg h5] at hx
      simp only [List.nil_append, List.mem_cons, List.not_mem_nil,
        or_false] at hx
      rcases hx with rfl | rfl <;> omega
  · rw [hstruct]
    by_cases h5 : now - post_time < 5 * 60
    · rw [if_pos h5]
      simp only [List.cons_append, List.nil_append, List.chain'_cons,
        List.chain'_singleton, and_true]
      omega
    · rw [if_neg h5]
      simp only [List.nil_append, List.chain'_cons, List.chain'_singleton,
        and_true]
      omega

/-- An available voice manager tracking nothing. -/
def vmFresh : VoiceManager := ⟨true, []⟩

/-- Witness for C3 at a concrete input: a 100-second-old post gets the
three-slot schedule [now, creation+1h, creation+2h]. -/
theorem c3_witness :
    (register_urgent_ad 100 tsParse0 vmFresh "20250101000000").voice_states.lookup
        "20250101000000" =
      some ⟨computePlayTimes 100 0, 0, none⟩ ∧
    computePlayTimes 100 0 = [100, 3600, 7200] := by
  have h := c3_register_schedule 100 0 "20250101000000" tsParse0 vmFresh
    rfl rfl (by decide) (by decide)
  refine ⟨h.1, ?_⟩
  rw [h.2.1]
  decide

/-! ## C4 -/

/-- Case analysis of one polling round: play_times is never touched, a
firing round consumes the current slot (which must exist) and advances
played_count by one, a silent round leaves played_count unchanged. -/
theorem pollStep_cases (t : Int) (e : VoiceEntry) :
    (pollStep t e).2.play_times = e.play_times ∧
    ((pollStep t e).1 = true →
       e.played_count < e.play_times.length ∧
       (pollStep t e).2.played_count = e.played_count + 1) ∧
    ((pollStep t e).1 = false →
       (pollStep t e).2.played_count = e.played_count) := by
  unfold pollStep should_play_voice mark_played
  by_cases h1 : e.played_count < e.play_times.length
  · simp only [dif_pos h1]
    by_cases h2 : e.play_times.get ⟨e.played_count, h1⟩ ≤ t
    · rw [if_pos h2]
      cases hlc : e.last_check with
      | none => simp [h1]
      | some lc =>
        by_cases h3 : lc < e.play_times.get ⟨e.played_count, h1⟩
        · simp only [List.get_eq_getElem] at h3
          simp [h3, h1]
        · simp only [List.get_eq_getElem] at h3
          simp [h3]
    · rw [if_neg h2]; simp
  · simp only [dif_neg h1]; simp

/-- Claim C4: starting from a consistent entry (played_count at most the
number of play_times), any run of polling rounds — each one
should_play_voice followed by mark_played exactly on a true result —
fires the slots played_count, played_count + 1, ... consecutively, each
slot at most once (the fired-slot trace is the duplicate-free range
starting at the initial played_count), and played_count ends at the
initial value plus the number of fires, never exceeding the number of
play_times. -/
theorem c4_voice_once_per_slot (times : List Int) (e : VoiceEntry)
    (h : e.played_count ≤ e.play_times.length) :
    (pollTrace times e).1 =
      List.range' e.played_count (pollTrace times e).1.length ∧
    (pollTrace times e).2.played_count =
      e.played_count + (pollTrace times e).1.length ∧
    (pollTrace times e).2.played_count ≤ e.play_times.length ∧
    (pollTrace times e).2.play_times = e.play_times := by
  induction times generalizing e with
  | nil => exact ⟨rfl, by simp [pollTrace], h, rfl⟩
  | cons t rest ih =>
    have hs := pollStep_cases t e
    cases hfire : (pollStep t e).1 with
    | true =>
      have h1 := hs.2.1 hfire
      have hle : (pollStep t e).2.played_count ≤
          (pollStep t e).2.play_times.length := by
        rw [hs.1, h1.2]; omega
      have ihh := ih (pollStep t e).2 hle
      have heq : pollTrace (t :: rest) e =
          (e.played_count :: (pollTrace rest (pollStep t e).2).1,
           (pollTrace rest (pollStep t e).2).2) := by
        simp only [pollTrace]
        rw [hfire]
        simp
      rw [heq]
      refine ⟨?_, ?_, ?_, ?_⟩
      · have htr := ihh.1
        rw [h1.2] at htr
        simp only [List.length_cons, List.range'_succ]
        exact congrArg (List.cons e.played_count) htr
      · simp only [List.length_cons]
        rw [ihh.2.1, h1.2]
        omega
      · rw [← hs.1]
        exact ihh.2.2.1
      · rw [ihh.2.2.2, hs.1]
    | false =>
      have h1 := hs.2.2 hfire
      have hle : (pollStep t e).2.played_count ≤
          (pollStep t e).2.play_times.length := by
        rw [hs.1, h1]; omega
      have ihh := ih (pollStep t e).2 hle
      have heq : pollTrace (t :: rest) e =
          ((pollTrace rest (pollStep t e).2).1,
           (pollTrace rest (pollStep t e).2).2) := by
        simp only [pollTrace]
        rw [hfire]
        simp
      rw [heq]
      refine ⟨?_, ?_, ?_, ?_⟩
      · have htr := ihh.1
        rw [h1] at htr
        exact htr
      · have hc := ihh.2.1
        rw [h1] at hc
        exact hc
      · rw [← hs.1]
        exact ihh.2.2.1
      · rw [ihh.2.2.2, hs.1]

/-- A consistent three-slot entry used by the C4 witness. -/
def entry3 : VoiceEntry := ⟨[0, 3600, 7200], 0, none⟩

/-- Witness for C4 at a concrete input: five polls (two of them landing
after the same target instant) fire slots 0, 1, 2 exactly once each and
leave played_count at 3 = number of play_times. -/
theorem c4_witness :
    (pollTrace [0, 1, 3600, 3601, 7200] entry3).1 =
      List.range' entry3.played_count
        (pollTrace [0, 1, 3600, 3601, 7200] entry3).1.length ∧
    (pollTrace [0, 1, 3600, 3601, 7200] entry3).2.played_count =
      entry3.played_count +
        (pollTrace [0, 1, 3600, 3601, 7200] entry3).1.length ∧
    (pollTrace [0, 1, 3600, 3601, 7200] entry3).2.played_count ≤
      entry3.play_times.length ∧
    (pollTrace [0, 1, 3600, 3601, 7200] entry3).2.play_times =
      entry3.play_times :=
  c4_voice_once_per_slot [0, 1, 3600, 3601, 7200] entry3 (by decide)

/-! ## C2 -/

/-- Once the pinch state machine is locked, further drag samples are
ignored entirely: no command is issued and the state is unchanged. -/
theorem onEvents_locked_drags (n : Int) (offsets : List ℚ) : ∀ (s : AppNav),
    s.mode = Mode.gesture → s.gs.locked = true →
    onEvents n s (offsets.map GEvent.pinchDrag) = (s, []) := by
  induction offsets with
  | nil => intro s _ _; rfl
  | cons o rest ih =>
    intro s hm hl
    have hstep : on_gesture n s (GEvent.pinchDrag o) = (s, []) := by
      simp [on_gesture, hm, hl]
    simp only [List.map_cons, onEvents, hstep]
    rw [ih s hm hl]
    rfl

/-- From the armed state a pinch_start leaves behind (dragging, not yet
changed, not locked), a run of drag samples issues exactly the command
of the first threshold-crossing offset — previous for a positive
crossing, next for a negative one — and none when no sample crosses;
the mode stays gesture throughout. -/
theorem onEvents_armed_drags (n : Int) (offsets : List ℚ) : ∀ (s : AppNav),
    s.mode = Mode.gesture → s.gs.dragging = true →
    s.gs.slide_changed = false → s.gs.locked = false →
    (onEvents n s (offsets.map GEvent.pinchDrag)).2 =
      (match firstTrigger offsets with
       | none => []
       | some o => [if swipeThreshold < o then Cmd.previous else Cmd.next]) ∧
    (onEvents n s (offsets.map GEvent.pinchDrag)).1.mode = Mode.gesture := by
  induction offsets with
  | nil => intro s hm _ _ _; exact ⟨rfl, hm⟩
  | cons o rest ih =>
    intro s hm hd hsc hl
    by_cases hp : swipeThreshold < o
    · have h1 : (on_gesture n s (GEvent.pinchDrag o)).2 = [Cmd.previous] := by
        simp [on_gesture, hm, hl, hd, hsc, hp]
      have h2 : (on_gesture n s (GEvent.pinchDrag o)).1.mode = Mode.gesture := by
        simp [on_gesture, hm, hl, hd, hsc, hp]
      have h3 : (on_gesture n s (GEvent.pinchDrag o)).1.gs.locked = true := by
        simp [on_gesture, hm, hl, hd, hsc, hp, lockGS]
      have hrest := onEvents_locked_drags n rest _ h2 h3
      have hft : firstTrigger (o :: rest) = some o := by
        unfold firstTrigger
        simp [List.find?_cons, hp]
      constructor
      · simp only [List.map_cons, onEvents, h1, hrest, hft]
        simp [hp]
      · simp only [List.map_cons, onEvents, hrest]
        exact h2
    · by_cases hq : o < -swipeThreshold
      · have h1 : (on_gesture n s (GEvent.pinchDrag o)).2 = [Cmd.next] := by
          simp [on_gesture, hm, hl, hd, hsc, hp, hq]
        have h2 : (on_gesture n s (GEvent.pinchDrag o)).1.mode = Mode.gesture := by
          simp [on_gesture, hm, hl, hd, hsc, hp, hq]
        have h3 : (on_gesture n s (GEvent.pinchDrag o)).1.gs.locked = true := by
          simp [on_gesture, hm, hl, hd, hsc, hp, hq, lockGS]
        have hrest := onEvents_locked_drags n rest _ h2 h3
        have hft : firstTrigger (o :: rest) = some o := by
          unfold firstTrigger
          simp [List.find?_cons, hp, hq]
        constructor
        · simp only [List.map_cons, onEvents, h1, hrest, hft]
          simp [hp]
        · simp only [List.map_cons, onEvents, hrest]
          exact h2
      · have h1 : (on_gesture n s (GEvent.pinchDrag o)).2 = [] := by
          simp [on_gesture, hm, hl, hd, hsc, hp, hq]
        have h2 : (on_gesture n s (GEvent.pinchDrag o)).1.mode = Mode.gesture := by
          simp [on_gesture, hm, hl, hd, hsc, hp, hq]
        have h3 : (on_gesture n s (GEvent.pinchDrag o)).1.gs.dragging = true := by
          simp [on_gesture, hm, hl, hd, hsc, hp, hq]
        have h4 : (on_gesture n s (GEvent.pinchDrag o)).1.gs.slide_changed = false := by
          simp [on_gesture, hm, hl, hd, hsc, hp, hq]
        have h5 : (on_gesture n s (GEvent.pinchDrag o)).1.gs.locked = false := by
          simp [on_gesture, hm, hl, hd, hsc, hp, hq]
        have ihh := ih _ h2 h3 h4 h5
        have hft : firstTrigger (o :: rest) = firstTrigger rest := by
          unfold firstTrigger
          simp [List.find?_cons, hp, hq]
        constructor
        · simp only [List.map_cons, onEvents, h1, hft]
          simpa using ihh.1
        · simp only [List.map_cons, onEvents]
          exact ihh.2

/-- Delivering a concatenation of event lists composes the state and
concatenates the issued commands. -/
theorem onEvents_append (n : Int) (l1 l2 : List GEvent) : ∀ (s : AppNav),
    onEvents n s (l1 ++ l2) =
      ((onEvents n (onEvents n s l1).1 l2).1,
       (onEvents n s l1).2 ++ (onEvents n (onEvents n s l1).1 l2).2) := by
  induction l1 with
  | nil => intro s; simp [onEvents]
  | cons e tl ih =>
    intro s
    simp only [List.cons_append, onEvents, List.append_eq]
    rw [ih ((on_gesture n s e).1)]
    simp [List.append_assoc]

/-- Claim C2: a full pinch lifecycle processed in gesture mode from an
unlocked state issues exactly one slide-change command as soon as some
drag offset crosses the 0.15 threshold — previous if that first crossing
is positive, next if negative — and no command at all otherwise; every
sample after the crossing is suppressed by the lock, and the release
returns the gesture state to the clean idle state with the mode still
gesture. -/
theorem c2_one_slide_change_per_pinch (n : Int) (s : AppNav) (offsets : List ℚ)
    (hm : s.mode = Mode.gesture) (hl : s.gs.locked = false) :
    (pinchLifecycle n s offsets).2 =
      (match firstTrigger offsets with
       | none => []
       | some o => [if swipeThreshold < o then Cmd.previous else Cmd.next]) ∧
    (pinchLifecycle n s offsets).1.gs = cleanGS ∧
    (pinchLifecycle n s offsets).1.mode = Mode.gesture := by
  have hstart : on_gesture n s GEvent.pinchStart =
      ({ s with gs := { dragging := true, drag_offset := 0,
                        slide_changed := false, locked := false } }, []) := by
    simp [on_gesture, hm, hl]
  have hlife : pinchLifecycle n s offsets =
      onEvents n
        { s with gs := { dragging := true, drag_offset := 0,
                         slide_changed := false, locked := false } }
        (offsets.map GEvent.pinchDrag ++ [GEvent.pinchRelease 0]) := by
    unfold pinchLifecycle
    simp only [onEvents, hstart]
    simp
  have harm := onEvents_armed_drags n offsets
    { s with gs := { dragging := true, drag_offset := 0,
                     slide_changed := false, locked := false } }
    hm rfl rfl rfl
  have happ := onEvents_append n (offsets.map GEvent.pinchDrag)
    [GEvent.pinchRelease 0]
    { s with gs := { dragging := true, drag_offset := 0,
                     slide_changed := false, locked := false } }
  have hrel : onEvents n
      (onEvents n
        { s with gs := { dragging := true, drag_offset := 0,
                         slide_changed := false, locked := false } }
        (offsets.map GEvent.pinchDrag)).1 [GEvent.pinchRelease 0] =
      ({ (onEvents n
            { s with gs := { dragging := true, drag_offset := 0,
                             slide_changed := false, locked := false } }
            (offsets.map GEvent.pinchDrag)).1 with gs := cleanGS }, []) := by
    have hr : on_gesture n
        (onEvents n
          { s with gs := { dragging := true, drag_offset := 0,
                           slide_changed := false, locked := false } }
          (offsets.map GEvent.pinchDrag)).1 (GEvent.pinchRelease 0) =
        ({ (onEvents n
              { s with gs := { dragging := true, drag_offset := 0,
                               slide_changed := false, locked := false } }
              (offsets.map GEvent.pinchDrag)).1 with gs := cleanGS }, []) := by
      simp [on_gesture, harm.2]
    simp only [onEvents, hr]
    simp
  rw [hlife, happ, hrel]
  refine ⟨?_, rfl, harm.2⟩
  rw [harm.1]
  simp

/-- An app state in gesture mode with a clean gesture state. -/
def gestureApp : AppNav := ⟨Mode.gesture, cleanGS, 0⟩

/-- Witness for C2 at a concrete input: drags 0.1 then 0.2 then 0.3
issue exactly one previous command and release restores the idle
state. -/
theorem c2_witness :
    (pinchLifecycle 3 gestureApp [1/10, 2/10, 3/10]).2 = [Cmd.previous] ∧
    (pinchLifecycle 3 gestureApp [1/10, 2/10, 3/10]).1.gs = cleanGS ∧
    (pinchLifecycle 3 gestureApp [1/10, 2/10, 3/10]).1.mode = Mode.gesture := by
  have h := c2_one_slide_change_per_pinch 3 gestureApp [1/10, 2/10, 3/10]
    rfl rfl
  refine ⟨?_, h.2.1, h.2.2⟩
  have hft : firstTrigger [1/10, 2/10, 3/10] = some (2/10) := by
    unfold firstTrigger swipeThreshold
    norm_num [List.find?]
  rw [h.1, hft]
  show [if swipeThreshold < (2/10 : ℚ) then Cmd.previous else Cmd.next] =
    [Cmd.previous]
  rw [if_pos (by norm_num [swipeThreshold])]

/-! ## C7 -/

/-- Claim C7: if the hand disappears while a pinch is latched, the
recognizer emits first a pinch_release carrying offset 0 and clears its
pinch latch; delivering the emitted events to the app returns it to auto
mode with a clean (idle) gesture state. The two hypotheses are the
coupling invariants of the delivered event stream: the app is in gesture
mode exactly while the recognizer tracks an open palm, and whenever the
app is in auto mode its gesture state is already clean. -/
theorem c7_hand_lost_forces_release (n : Int) (r : RecogState) (app : AppNav)
    (hp : r.is_pinching = true)
    (hsync : app.mode = Mode.gesture ↔ r.palm_detected = true)
    (hclean : app.mode = Mode.auto → app.gs = cleanGS) :
    (runOnceNoHand r).2.head? = some (GEvent.pinchRelease 0) ∧
    (runOnceNoHand r).1.is_pinching = false ∧
    (onEvents n app (runOnceNoHand r).2).1.mode = Mode.auto ∧
    (onEvents n app (runOnceNoHand r).2).1.gs = cleanGS := by
  cases hpd : r.palm_detected with
  | true =>
    have hmode : app.mode = Mode.gesture := hsync.mpr hpd
    cases hmf : r.is_moving_fast with
    | true =>
      have hevs : (runOnceNoHand r).2 =
          [GEvent.pinchRelease 0, GEvent.handLost, GEvent.fastEnd] := by
        simp [runOnceNoHand, hp, hpd, hmf]
      refine ⟨by rw [hevs]; rfl, by simp [runOnceNoHand, hp, hpd, hmf], ?_, ?_⟩ <;>
        · rw [hevs]
          simp [onEvents, on_gesture, hmode]
    | false =>
      have hevs : (runOnceNoHand r).2 =
          [GEvent.pinchRelease 0, GEvent.handLost] := by
        simp [runOnceNoHand, hp, hpd, hmf]
      refine ⟨by rw [hevs]; rfl, by simp [runOnceNoHand, hp, hpd, hmf], ?_, ?_⟩ <;>
        · rw [hevs]
          simp [onEvents, on_gesture, hmode]
  | false =>
    have hmodeA : app.mode = Mode.auto := by
      cases hm2 : app.mode with
      | auto => rfl
      | gesture =>
        have := hsync.mp hm2
        rw [hpd] at this
        exact absurd this (by simp)
    have hgs := hclean hmodeA
    cases hmf : r.is_moving_fast with
    | true =>
      have hevs : (runOnceNoHand r).2 =
          [GEvent.pinchRelease 0, GEvent.fastEnd] := by
        simp [runOnceNoHand, hp, hpd, hmf]
      refine ⟨by rw [hevs]; rfl, by simp [runOnceNoHand, hp, hpd, hmf], ?_, ?_⟩ <;>
        · rw [hevs]
          simp [onEvents, on_gesture, hmodeA, hgs]
    | false =>
      have hevs : (runOnceNoHand r).2 = [GEvent.pinchRelease 0] := by
        simp [runOnceNoHand, hp, hpd, hmf]
      refine ⟨by rw [hevs]; rfl, by simp [runOnceNoHand, hp, hpd, hmf], ?_, ?_⟩ <;>
        · rw [hevs]
          simp [onEvents, on_gesture, hmodeA, hgs]

/-- A recognizer state latched in a pinch with an open palm tracked. -/
def pinchingRecog : RecogState :=
  ⟨true, some (1/2), some (3/5), true, true, false, some (1/2, 1/2), some 0, [1]⟩

/-- An app state mid-drag in gesture mode. -/
def draggingApp : AppNav :=
  ⟨Mode.gesture, ⟨true, 1/10, false, false⟩, 1⟩

/-- Witness for C7 at a concrete input. -/
theorem c7_witness :
    (runOnceNoHand pinchingRecog).2.head? = some (GEvent.pinchRelease 0) ∧
    (runOnceNoHand pinchingRecog).1.is_pinching = false ∧
    (onEvents 2 draggingApp (runOnceNoHand pinchingRecog).2).1.mode = Mode.auto ∧
    (onEvents 2 draggingApp (runOnceNoHand pinchingRecog).2).1.gs = cleanGS :=
  c7_hand_lost_forces_release 2 pinchingRecog draggingApp rfl
    (by constructor <;> intro <;> rfl)
    (by intro h; exact absurd h (by simp [draggingApp]))
